import Mathlib

/-!
Verification of the turn-handling logic of the bb-chatbot repository
(`src/app.py`, `src/chatbot.py`) against its natural-language specification.

Texts are modelled as `List Char` (ASCII; `str.lower`, `\w`, `\s` and the
character classes of the regexes in the source are ASCII-modelled).
The Flask/DB/SMTP plumbing is modelled as explicit state:
  * the in-memory `conversation_state` dict is an association list,
  * the email database is a `DbState` (configured flag, failure flag for a
    raised exception at insert/commit time, and the stored emails),
  * a call to `send_support_email` is recorded as a `SupportEmail` value,
  * the generative `get_answer` of app.py is an opaque parameter
    `gen : List Char → List Char` (it calls a hosted LLM).
-/

/-- The apostrophe character, used inside several fixed message strings. -/
def apos : Char := Char.ofNat 39

/-- ASCII lowercasing of one character, modelling Python `str.lower`. -/
def lowerChar (c : Char) : Char :=
  if c.isUpper then Char.ofNat (c.toNat + 32) else c

/-- ASCII lowercasing of a text, modelling Python `str.lower`. -/
def lowerStr (l : List Char) : List Char := l.map lowerChar

/-- Python's substring test `needle in hay`. -/
def containsSub (needle : List Char) : List Char → Bool
  | [] => needle.isEmpty
  | c :: t => needle.isPrefixOf (c :: t) || containsSub needle t

/-- Character class `[a-zA-Z0-9._%+-]` (local part of the email regex). -/
def isEmailLocalChar (c : Char) : Bool :=
  c.isAlphanum || c == '.' || c == '_' || c == '%' || c == '+' || c == '-'

/-- Character class `[a-zA-Z0-9.-]` (domain part of the email and URL regexes). -/
def isDomainChar (c : Char) : Bool :=
  c.isAlphanum || c == '.' || c == '-'

/-- Python `\w` (ASCII model): `[a-zA-Z0-9_]`. -/
def isWordChar (c : Char) : Bool :=
  c.isAlphanum || c == '_'

/-- Backtracking step shared by the email and URL regexes: after the `@` (resp.
`://`) the engine matches `[a-zA-Z0-9.-]+\.[a-zA-Z]{2,}` greedily.  `goDot r2 n`
returns the largest `k` with `1 ≤ k ≤ n` such that `r2` has a dot at index `k`
followed by at least two ASCII letters; `n` is the length of the maximal run of
domain characters, so indices `0..k-1` are domain characters. -/
def goDot (r2 : List Char) : Nat → Option Nat
  | 0 => none
  | k + 1 =>
    if r2.get? (k + 1) = some '.' ∧
        2 ≤ ((r2.drop (k + 2)).takeWhile Char.isAlpha).length then
      some (k + 1)
    else goDot r2 k

/-- Match of the email regex `[a-zA-Z0-9._%+-]+@[a-zA-Z0-9.-]+\.[a-zA-Z]{2,}`
anchored at the start of `l`, returning the matched text (`re` group 0). -/
def matchEmailAt (l : List Char) : Option (List Char) :=
  let loc := l.takeWhile isEmailLocalChar
  if loc.isEmpty then none
  else
    match l.drop loc.length with
    | '@' :: r2 =>
      match goDot r2 (r2.takeWhile isDomainChar).length with
      | some k =>
        some (loc ++ '@' :: (r2.take (k + 1) ++ (r2.drop (k + 1)).takeWhile Char.isAlpha))
      | none => none
    | _ => none

/-- Leftmost-match scan of `matchEmailAt`, modelling `re.search`. -/
def findEmail : List Char → Option (List Char)
  | [] => none
  | c :: t =>
    match matchEmailAt (c :: t) with
    | some m => some m
    | none => findEmail t

/-- `extract_email_from_text` of app.py: first match of the email regex. -/
def extract_email_from_text (l : List Char) : Option (List Char) :=
  findEmail l

/-- Scheme part `https?://` of the URL regex, matched literally at the start. -/
def schemeSplit (l : List Char) : Option (List Char × List Char) :=
  if ("https://".toList).isPrefixOf l then some (("https://".toList), l.drop 8)
  else if ("http://".toList).isPrefixOf l then some (("http://".toList), l.drop 7)
  else none

/-- Match of the URL regex `https?://[a-zA-Z0-9.-]+\.[a-zA-Z]{2,}[^\s]*`
anchored at the start of `l`; returns the match and the remainder of `l`. -/
def matchUrlAt (l : List Char) : Option (List Char × List Char) :=
  match schemeSplit l with
  | none => none
  | some (sch, r2) =>
    match goDot r2 (r2.takeWhile isDomainChar).length with
    | none => none
    | some k =>
      let tld := (r2.drop (k + 1)).takeWhile Char.isAlpha
      let rest0 := r2.drop (k + 1 + tld.length)
      let tail := rest0.takeWhile (fun c => !c.isWhitespace)
      some (sch ++ r2.take (k + 1) ++ tld ++ tail, rest0.drop tail.length)

/-- Left-to-right non-overlapping scan of `matchUrlAt`, modelling `re.findall`
(fuel bounds the number of scan steps; each step consumes at least one char). -/
def findUrls : Nat → List Char → List (List Char)
  | 0, _ => []
  | _ + 1, [] => []
  | fuel + 1, c :: t =>
    match matchUrlAt (c :: t) with
    | some (m, rest) => m :: findUrls fuel rest
    | none => findUrls fuel t

/-- `extract_url_from_text` of app.py: all matches of the URL regex. -/
def extract_url_from_text (l : List Char) : List (List Char) :=
  findUrls l.length l

/-- One match of `\b[A-Z][a-z]*\b` anchored at the start of `l` (the word
boundary before the match is checked by the caller via the previous character).
If the greedy `[a-z]*` run is followed by a word character the whole position
fails (no shorter run can restore the boundary). -/
def matchCapAt : List Char → Option (List Char × List Char)
  | [] => none
  | c :: t =>
    if c.isUpper then
      let run := t.takeWhile Char.isLower
      match t.drop run.length with
      | [] => some (c :: run, [])
      | d :: r => if isWordChar d then none else some (c :: run, d :: r)
    else none

/-- `re.findall(r'\b[A-Z][a-z]*\b', text)`: scan left to right, tracking
whether the previous character is a word character (for the `\b` before a
match); continue after each match. -/
def findCaps : Nat → Bool → List Char → List (List Char)
  | 0, _, _ => []
  | _ + 1, _, [] => []
  | fuel + 1, prevIsWord, c :: t =>
    if prevIsWord then findCaps fuel (isWordChar c) t
    else
      match matchCapAt (c :: t) with
      | some (m, rest) => m :: findCaps fuel true rest
      | none => findCaps fuel (isWordChar c) t

/-- The `common_words` set of `extract_name_from_text`. -/
def commonWords : List (List Char) :=
  [("I".toList), ("A".toList), ("The".toList), ("And".toList), ("Or".toList),
   ("But".toList), ("For".toList), ("Nor".toList), ("On".toList), ("At".toList),
   ("To".toList), ("By".toList), ("With".toList)]

/-- The capitalized words of the text that are not in `common_words`. -/
def nameCandidates (l : List Char) : List (List Char) :=
  (findCaps l.length false l).filter (fun w => !(commonWords.contains w))

/-- Python `" ".join`. -/
def joinSpace : List (List Char) → List Char
  | [] => []
  | [w] => w
  | w :: ws => w ++ ' ' :: joinSpace ws

/-- `extract_name_from_text` of app.py: several candidates are joined with
spaces; a single candidate counts only when longer than two letters. -/
def extract_name_from_text (l : List Char) : Option (List Char) :=
  match nameCandidates l with
  | [] => none
  | [w] => if 2 < w.length then some w else none
  | ws => some (joinSpace ws)

/-- A FAQ entry (`{question, answer}`). -/
structure Faq where
  question : List Char
  answer : List Char
deriving DecidableEq

/-- The fixed no-answer message of chatbot.py `get_answer`. -/
def chatbotNoAnswer : List Char :=
  ("Sorry, I couldn".toList) ++ [apos] ++ ("t find an answer to your question.".toList)

/-- `get_answer` of chatbot.py: the exact-match strategy.  Returns the answer
of the first FAQ whose question contains the query as a case-insensitive
substring, else the fixed no-answer message. -/
def chatbot_get_answer (query : List Char) (faqs : List Faq) : List Char :=
  match faqs.find? (fun f => containsSub (lowerStr query) (lowerStr f.question)) with
  | some f => f.answer
  | none => chatbotNoAnswer

/-- `is_working_hours` of app.py over the Eastern-time clock reading, taken as
microseconds since midnight: inside 9:00-12:00 or 13:00-17:30, both inclusive.
In the src revision this function is defined but never called by the handler. -/
def is_working_hours (t : Nat) : Bool :=
  (decide (32400000000 ≤ t) && decide (t ≤ 43200000000)) ||
  (decide (46800000000 ≤ t) && decide (t ≤ 63000000000))

/-- The per-session conversation state stored in `conversation_state`:
`{'waiting_for_contact': ..., 'original_query': ...}`. -/
structure SessCtx where
  waiting_for_contact : Bool
  original_query : Option (List Char)
deriving DecidableEq

/-- The `conversation_state` dict (session id → context), as an assoc list. -/
abbrev ConvState : Type := List (String × SessCtx)

/-- Dict lookup `conversation_state.get(session_id, ...)`. -/
def convLookup : ConvState → String → Option SessCtx
  | [], _ => none
  | (k, c) :: t, sid => if k = sid then some c else convLookup t sid

/-- Dict deletion `del conversation_state[session_id]`. -/
def convDel : ConvState → String → ConvState
  | [], _ => []
  | (k, c) :: t, sid => if k = sid then convDel t sid else (k, c) :: convDel t sid

/-- Dict assignment `conversation_state[session_id] = ctx`. -/
def convSet (conv : ConvState) (sid : String) (ctx : SessCtx) : ConvState :=
  (sid, ctx) :: convDel conv sid

/-- Truthiness of `conversation_state.get(session_id, {}).get('waiting_for_contact')`. -/
def isAwaiting (conv : ConvState) (sid : String) : Bool :=
  match convLookup conv sid with
  | some c => c.waiting_for_contact
  | none => false

/-- The email database: `configured` is `db_engine` being set, `failing`
models an exception raised at insert/commit time (rolled back, so the stored
emails are unchanged), `emails` the rows of the `emails` table. -/
structure DbState where
  configured : Bool
  failing : Bool
  emails : List (List Char)
deriving DecidableEq

/-- `save_email` of app.py: `True` exactly when a new row was committed;
unconfigured database, an already-present email, and a raised exception all
yield `False` with the table unchanged. -/
def save_email (db : DbState) (email : List Char) : Bool × DbState :=
  if !db.configured then (false, db)
  else if db.emails.contains email then (false, db)
  else if db.failing then (false, db)
  else (true, { db with emails := db.emails ++ [email] })

/-- One call to `send_support_email(user_query, user_email, user_name)`. -/
structure SupportEmail where
  user_query : List Char
  user_email : Option (List Char)
  user_name : Option (List Char)
deriving DecidableEq

/-- The HTTP reply of one turn. -/
structure Response where
  status : Nat
  answer : List Char
  urls : Option (List (List Char))
deriving DecidableEq

/-- Everything one turn produces: the reply, the new conversation state, the
new database state, and the `send_support_email` calls made. -/
structure TurnResult where
  resp : Response
  conv : ConvState
  db : DbState
  sent : List SupportEmail
deriving DecidableEq

/-- `'Error: No query provided.'` -/
def errNoQuery : List Char := ("Error: No query provided.".toList)

/-- Reply of the name-and-email branch of the awaiting-contact state. -/
def fwdConfirm : List Char :=
  ("Thank you for providing your information. Your question has been forwarded to info@blackbelttestprep.com, and we will get back to you as soon as possible.".toList)

/-- Reply of the decline branch of the awaiting-contact state. -/
def declinedReply : List Char :=
  ("Understood. I cannot forward your question without your contact information.".toList)

/-- Reply of the fall-through branch of the awaiting-contact state. -/
def stillNeedReply : List Char :=
  ("I still need your name and email to forward your question. Please provide them.".toList)

/-- Reply when a new email was stored (contains the discount code). -/
def thankYouSub : List Char :=
  ("Thank you for subscribing! Here is your $5 discount code: **BBTPOFF5**. You can now ask me questions about the FAQs.".toList)

/-- Reply when the email was already collected or saving failed. -/
def alreadySub : List Char :=
  ("It looks like that email has already been subscribed. You can now ask me questions about the FAQs.".toList)

/-- Reply of the unresolved-answer path (asks for name and email). -/
def cannotFindReply : List Char :=
  ("I cannot find an answer to your question in our FAQs. To forward your question to our support team, please provide your name and email address.".toList)

/-- The `unanswered_phrases` list of app.py. -/
def unansweredPhrases : List (List Char) :=
  [("cannot find an answer".toList),
   (("couldn".toList) ++ [apos] ++ ("t generate a response".toList)),
   ("encountered an error".toList),
   ("visit the contact page".toList)]

/-- `any(phrase in answer.lower() for phrase in unanswered_phrases)`. -/
def isUnanswered (answer : List Char) : Bool :=
  unansweredPhrases.any (fun p => containsSub p (lowerStr answer))

/-- Decline signal `"no"`. -/
def noSignal : List Char := ("no".toList)

/-- Decline signal `"don't want to share"`. -/
def declineSignal : List Char :=
  ("don".toList) ++ [apos] ++ ("t want to share".toList)

/-- The `/ask` handler `ask_chatbot` of app.py, over one turn.  `gen` is the
generative `get_answer` of app.py (an external LLM call); `query` and
`session_id` are `data.get('query')` and `data.get('session_id', ...)`. -/
def ask_chatbot (gen : List Char → List Char) (conv : ConvState) (db : DbState)
    (query : Option (List Char)) (session_id : Option String) : TurnResult :=
  let sid := session_id.getD "default_session"
  match query with
  | none => ⟨⟨400, errNoQuery, none⟩, conv, db, []⟩
  | some user_input =>
    if user_input.isEmpty then ⟨⟨400, errNoQuery, none⟩, conv, db, []⟩
    else
      let extracted_email := extract_email_from_text user_input
      if isAwaiting conv sid then
        let ctx := (convLookup conv sid).getD ⟨false, none⟩
        let user_name := extract_name_from_text user_input
        let user_email := extract_email_from_text user_input
        match user_name, user_email with
        | some nm, some em =>
          ⟨⟨200, fwdConfirm, none⟩, convDel conv sid, db,
            [⟨ctx.original_query.getD ("N/A".toList), some em, some nm⟩]⟩
        | _, _ =>
          if containsSub noSignal (lowerStr user_input)
              || containsSub declineSignal (lowerStr user_input) then
            ⟨⟨200, declinedReply, none⟩, convDel conv sid, db, []⟩
          else
            ⟨⟨200, stillNeedReply, none⟩, conv, db, []⟩
      else
        match extracted_email with
        | some em =>
          match save_email db em with
          | (true, db2) => ⟨⟨200, thankYouSub, none⟩, conv, db2, []⟩
          | (false, db2) => ⟨⟨200, alreadySub, none⟩, conv, db2, []⟩
        | none =>
          let answer := gen user_input
          if isUnanswered answer then
            ⟨⟨200, cannotFindReply, none⟩, convSet conv sid ⟨true, some user_input⟩, db, []⟩
          else
            ⟨⟨200, answer, some (extract_url_from_text answer)⟩, conv, db, []⟩

example : extract_email_from_text ("contact me at jane@example.com".toList) =
    some ("jane@example.com".toList) := by decide

example : extract_email_from_text ("when was the academy founded".toList) = none := by decide

example : extract_name_from_text ("Jane Doe, jane@example.com".toList) =
    some ("Jane Doe".toList) := by decide

example : extract_name_from_text ("jane doe, jane@example.com".toList) = none := by decide

example : extract_name_from_text ("no thanks".toList) = none := by decide

example : extract_url_from_text ("Please see https://example.com/help for details".toList) =
    [("https://example.com/help".toList)] := by decide

example : isUnanswered ("Please visit the Contact Page.".toList) = true := by decide

example : isUnanswered ("Please see https://example.com/help for details".toList) = false := by
  decide

/-! ### Basic lemmas about the session store -/

theorem convLookup_set_self (conv : ConvState) (sid : String) (c : SessCtx) :
    convLookup (convSet conv sid c) sid = some c := by
  simp [convSet, convLookup]

theorem convLookup_del_self (conv : ConvState) (sid : String) :
    convLookup (convDel conv sid) sid = none := by
  induction conv with
  | nil => rfl
  | cons p t ih =>
    obtain ⟨k, c⟩ := p
    by_cases h : k = sid
    · simp [convDel, h, ih]
    · simp [convDel, convLookup, h, ih]

theorem isAwaiting_of_lookup (conv : ConvState) (sid : String) (c : SessCtx)
    (h : convLookup conv sid = some c) (hw : c.waiting_for_contact = true) :
    isAwaiting conv sid = true := by
  simp [isAwaiting, h, hw]

theorem isAwaiting_set_true (conv : ConvState) (sid : String) (q : List Char) :
    isAwaiting (convSet conv sid ⟨true, some q⟩) sid = true := by
  simp [isAwaiting, convLookup_set_self]

/-! ### Branch lemmas for `ask_chatbot` -/

theorem ask_no_query (gen : List Char → List Char) (conv : ConvState) (db : DbState)
    (sid : Option String) :
    ask_chatbot gen conv db none sid = ⟨⟨400, errNoQuery, none⟩, conv, db, []⟩ := rfl

theorem ask_empty_query (gen : List Char → List Char) (conv : ConvState) (db : DbState)
    (sid : Option String) :
    ask_chatbot gen conv db (some []) sid = ⟨⟨400, errNoQuery, none⟩, conv, db, []⟩ := rfl

theorem ask_session_norm (gen : List Char → List Char) (conv : ConvState) (db : DbState)
    (query : Option (List Char)) (sid : Option String) :
    ask_chatbot gen conv db query sid =
      ask_chatbot gen conv db query (some (sid.getD "default_session")) := by
  cases sid <;> rfl

theorem ask_awaiting_forward (gen : List Char → List Char) (conv : ConvState) (db : DbState)
    (sid : String) (q nm em : List Char) (hq : q ≠ [])
    (hA : isAwaiting conv sid = true)
    (hn : extract_name_from_text q = some nm)
    (he : extract_email_from_text q = some em) :
    ask_chatbot gen conv db (some q) (some sid) =
      ⟨⟨200, fwdConfirm, none⟩, convDel conv sid, db,
        [⟨((convLookup conv sid).getD ⟨false, none⟩).original_query.getD ("N/A".toList),
          some em, some nm⟩]⟩ := by
  cases q with
  | nil => exact absurd rfl hq
  | cons c t => simp [ask_chatbot, hA, hn, he]

theorem ask_awaiting_noboth (gen : List Char → List Char) (conv : ConvState) (db : DbState)
    (sid : String) (q : List Char) (hq : q ≠ [])
    (hA : isAwaiting conv sid = true)
    (hne : extract_name_from_text q = none ∨ extract_email_from_text q = none) :
    ask_chatbot gen conv db (some q) (some sid) =
      if containsSub noSignal (lowerStr q) || containsSub declineSignal (lowerStr q) then
        ⟨⟨200, declinedReply, none⟩, convDel conv sid, db, []⟩
      else ⟨⟨200, stillNeedReply, none⟩, conv, db, []⟩ := by
  cases q with
  | nil => exact absurd rfl hq
  | cons c t =>
    rcases hne with hn | he
    · simp [ask_chatbot, hA, hn]
    · cases hn : extract_name_from_text (c :: t) with
      | none => simp [ask_chatbot, hA, hn]
      | some nm => simp [ask_chatbot, hA, hn, he]

theorem ask_optin_new (gen : List Char → List Char) (conv : ConvState) (db db2 : DbState)
    (sid : String) (q em : List Char) (hq : q ≠ [])
    (hA : isAwaiting conv sid = false)
    (he : extract_email_from_text q = some em)
    (hs : save_email db em = (true, db2)) :
    ask_chatbot gen conv db (some q) (some sid) =
      ⟨⟨200, thankYouSub, none⟩, conv, db2, []⟩ := by
  cases q with
  | nil => exact absurd rfl hq
  | cons c t => simp [ask_chatbot, hA, he, hs]

theorem ask_optin_dup (gen : List Char → List Char) (conv : ConvState) (db db2 : DbState)
    (sid : String) (q em : List Char) (hq : q ≠ [])
    (hA : isAwaiting conv sid = false)
    (he : extract_email_from_text q = some em)
    (hs : save_email db em = (false, db2)) :
    ask_chatbot gen conv db (some q) (some sid) =
      ⟨⟨200, alreadySub, none⟩, conv, db2, []⟩ := by
  cases q with
  | nil => exact absurd rfl hq
  | cons c t => simp [ask_chatbot, hA, he, hs]

theorem ask_default_unanswered (gen : List Char → List Char) (conv : ConvState) (db : DbState)
    (sid : String) (q : List Char) (hq : q ≠ [])
    (hA : isAwaiting conv sid = false)
    (he : extract_email_from_text q = none)
    (hU : isUnanswered (gen q) = true) :
    ask_chatbot gen conv db (some q) (some sid) =
      ⟨⟨200, cannotFindReply, none⟩, convSet conv sid ⟨true, some q⟩, db, []⟩ := by
  cases q with
  | nil => exact absurd rfl hq
  | cons c t => simp [ask_chatbot, hA, he, hU]

theorem ask_default_answered (gen : List Char → List Char) (conv : ConvState) (db : DbState)
    (sid : String) (q : List Char) (hq : q ≠ [])
    (hA : isAwaiting conv sid = false)
    (he : extract_email_from_text q = none)
    (hU : isUnanswered (gen q) = false) :
    ask_chatbot gen conv db (some q) (some sid) =
      ⟨⟨200, gen q, some (extract_url_from_text (gen q))⟩, conv, db, []⟩ := by
  cases q with
  | nil => exact absurd rfl hq
  | cons c t => simp [ask_chatbot, hA, he, hU]

/-! ### The session-state invariant (spec section 3) -/

/-- `pendingQuery` is present if and only if `awaitingContact` is true. -/
def sessInv (c : SessCtx) : Prop :=
  c.original_query.isSome = c.waiting_for_contact

instance (c : SessCtx) : Decidable (sessInv c) := by
  unfold sessInv
  infer_instance

/-- Every stored session entry satisfies `sessInv`. -/
def convInv (conv : ConvState) : Prop :=
  ∀ p ∈ conv, sessInv p.2

instance (conv : ConvState) : Decidable (convInv conv) := by
  unfold convInv
  infer_instance

theorem mem_convDel {p : String × SessCtx} (conv : ConvState) (sid : String)
    (hp : p ∈ convDel conv sid) : p ∈ conv := by
  induction conv with
  | nil => simp [convDel] at hp
  | cons q t ih =>
    obtain ⟨k, c⟩ := q
    simp only [convDel] at hp
    by_cases hk : k = sid
    · rw [if_pos hk] at hp
      exact List.mem_cons_of_mem _ (ih hp)
    · rw [if_neg hk] at hp
      rcases List.mem_cons.mp hp with h1 | h2
      · exact h1 ▸ List.mem_cons_self _ _
      · exact List.mem_cons_of_mem _ (ih h2)

theorem convInv_del (conv : ConvState) (sid : String) (h : convInv conv) :
    convInv (convDel conv sid) :=
  fun p hp => h p (mem_convDel conv sid hp)

theorem convInv_set (conv : ConvState) (sid : String) (q : List Char) (h : convInv conv) :
    convInv (convSet conv sid ⟨true, some q⟩) := by
  intro p hp
  rcases List.mem_cons.mp hp with rfl | hp'
  · simp [sessInv]
  · exact convInv_del conv sid h p hp'

/-! ### Claim C4: the exact-match strategy of chatbot.py -/

/-- C4: for every query and every ordered FAQ corpus, the exact-match strategy
returns the answer of the first FAQ entry (in corpus order) whose question
contains the query as a case-insensitive substring; it returns the fixed
no-answer message when no entry matches, and in particular for every query
over an empty corpus; when several entries match, the earliest wins. -/
theorem C4_exact_match :
    (∀ q : List Char, chatbot_get_answer q [] = chatbotNoAnswer) ∧
    (∀ (q : List Char) (faqs : List Faq),
        (∀ f ∈ faqs, containsSub (lowerStr q) (lowerStr f.question) = false) →
        chatbot_get_answer q faqs = chatbotNoAnswer) ∧
    (∀ (q : List Char) (pre : List Faq) (f : Faq) (post : List Faq),
        (∀ g ∈ pre, containsSub (lowerStr q) (lowerStr g.question) = false) →
        containsSub (lowerStr q) (lowerStr f.question) = true →
        chatbot_get_answer q (pre ++ f :: post) = f.answer) := by
  refine ⟨fun q => rfl, ?_, ?_⟩
  · intro q faqs h
    have hnone : faqs.find? (fun f => containsSub (lowerStr q) (lowerStr f.question)) = none :=
      List.find?_eq_none.mpr (fun x hx => by simp [h x hx])
    simp [chatbot_get_answer, hnone]
  · intro q pre f post hpre hf
    induction pre with
    | nil =>
      have : (f :: post).find? (fun g => containsSub (lowerStr q) (lowerStr g.question)) =
          some f := List.find?_cons_of_pos _ (by simpa using hf)
      simp [chatbot_get_answer, this]
    | cons g t ih =>
      have hg : containsSub (lowerStr q) (lowerStr g.question) = false :=
        hpre g (List.mem_cons_self g t)
      have ih' := ih (fun x hx => hpre x (List.mem_cons_of_mem g hx))
      unfold chatbot_get_answer at ih' ⊢
      rw [List.cons_append, List.find?_cons_of_neg _ (by simp [hg])]
      exact ih'

/-- Witness for C4 at the corpus of the spec's example: query `"refund"` over
`[{q:"refund policy", a:"A1"}, {q:"refund window", a:"A2"}]` yields `"A1"`. -/
theorem C4_witness :
    (∀ g ∈ ([] : List Faq), containsSub (lowerStr ("refund".toList)) (lowerStr g.question) = false) ∧
    containsSub (lowerStr ("refund".toList)) (lowerStr ("refund policy".toList)) = true ∧
    chatbot_get_answer ("refund".toList)
      [⟨("refund policy".toList), ("A1".toList)⟩, ⟨("refund window".toList), ("A2".toList)⟩] =
      ("A1".toList) :=
  ⟨by decide, by decide,
    C4_exact_match.2.2 ("refund".toList) [] ⟨("refund policy".toList), ("A1".toList)⟩
      [⟨("refund window".toList), ("A2".toList)⟩] (by decide) (by decide)⟩

/-! ### Claim C5: missing or empty query -/

/-- C5: a request whose query text is absent or empty fails with status 400 and
the answer exactly `"Error: No query provided."`; the conversation state and
the database are untouched and no notification is sent on that turn. -/
theorem C5_empty_query (gen : List Char → List Char) (conv : ConvState) (db : DbState)
    (query : Option (List Char)) (sid : Option String)
    (h : query = none ∨ query = some []) :
    ask_chatbot gen conv db query sid = ⟨⟨400, errNoQuery, none⟩, conv, db, []⟩ := by
  rcases h with rfl | rfl
  · exact ask_no_query gen conv db sid
  · exact ask_empty_query gen conv db sid

/-- Witness for C5 at an empty query over a non-trivial session store. -/
theorem C5_witness :
    ((some [] : Option (List Char)) = none ∨ (some [] : Option (List Char)) = some []) ∧
    ask_chatbot (fun a => a) [("s1", ⟨true, some ("x".toList)⟩)] ⟨true, false, []⟩
        (some []) (some "s1") =
      ⟨⟨400, errNoQuery, none⟩, [("s1", ⟨true, some ("x".toList)⟩)], ⟨true, false, []⟩, []⟩ :=
  ⟨Or.inr rfl,
    C5_empty_query (fun a => a) [("s1", ⟨true, some ("x".toList)⟩)] ⟨true, false, []⟩
      (some []) (some "s1") (Or.inr rfl)⟩

/-! ### Claim C6: the session-state invariant is preserved by every branch -/

/-- C6: for every state of the session store satisfying the invariant
(`pendingQuery` present iff `awaitingContact` true) and every turn handled by
`ask_chatbot`, the resulting store satisfies the invariant again. -/
theorem C6_session_invariant (gen : List Char → List Char) (conv : ConvState) (db : DbState)
    (query : Option (List Char)) (sid : Option String) (h : convInv conv) :
    convInv (ask_chatbot gen conv db query sid).conv := by
  rw [ask_session_norm]
  set s := sid.getD "default_session" with hs
  cases query with
  | none => exact h
  | some q =>
    cases q with
    | nil => exact h
    | cons c t =>
      have hq : (c :: t) ≠ ([] : List Char) := by simp
      by_cases hA : isAwaiting conv s = true
      · cases hn : extract_name_from_text (c :: t) with
        | some nm =>
          cases he : extract_email_from_text (c :: t) with
          | some em =>
            rw [ask_awaiting_forward gen conv db s (c :: t) nm em hq hA hn he]
            exact convInv_del conv s h
          | none =>
            rw [ask_awaiting_noboth gen conv db s (c :: t) hq hA (Or.inr he)]
            by_cases hd : (containsSub noSignal (lowerStr (c :: t))
                || containsSub declineSignal (lowerStr (c :: t))) = true
            · rw [if_pos hd]
              exact convInv_del conv s h
            · rw [if_neg hd]
              exact h
        | none =>
          rw [ask_awaiting_noboth gen conv db s (c :: t) hq hA (Or.inl hn)]
          by_cases hd : (containsSub noSignal (lowerStr (c :: t))
              || containsSub declineSignal (lowerStr (c :: t))) = true
          · rw [if_pos hd]
            exact convInv_del conv s h
          · rw [if_neg hd]
            exact h
      · rw [Bool.not_eq_true] at hA
        cases he : extract_email_from_text (c :: t) with
        | some em =>
          rcases hsv : save_email db em with ⟨b, db2⟩
          cases b
          · rw [ask_optin_dup gen conv db db2 s (c :: t) em hq hA he hsv]
            exact h
          · rw [ask_optin_new gen conv db db2 s (c :: t) em hq hA he hsv]
            exact h
        | none =>
          by_cases hU : isUnanswered (gen (c :: t)) = true
          · rw [ask_default_unanswered gen conv db s (c :: t) hq hA he hU]
            exact convInv_set conv s (c :: t) h
          · rw [Bool.not_eq_true] at hU
            rw [ask_default_answered gen conv db s (c :: t) hq hA he hU]
            exact h

/-- Witness for C6: a store holding one awaiting-contact entry keeps the
invariant across a turn that clears it. -/
theorem C6_witness :
    convInv [("s1", ⟨true, some ("help".toList)⟩)] ∧
    convInv (ask_chatbot (fun _ => ("ok".toList)) [("s1", ⟨true, some ("help".toList)⟩)]
      ⟨true, false, []⟩ (some ("no thanks".toList)) (some "s1")).conv :=
  ⟨by decide,
    C6_session_invariant (fun _ => ("ok".toList)) [("s1", ⟨true, some ("help".toList)⟩)]
      ⟨true, false, []⟩ (some ("no thanks".toList)) (some "s1") (by decide)⟩

/-! ### Claim C1: behavior on an unresolved-signal answer (src revision) -/

/-- C1 counterexample: on a fresh session (not awaiting contact, no email in
the message) whose generated answer contains the unresolved-signal phrase
`"visit the contact page"`, the handler of src/app.py sends no notification
(neither webhook nor email), and it does enter awaiting-contact for the
session, contradicting the claim's "dispatches one notification ... and does
not enter awaiting-contact state". -/
theorem C1_counterexample :
    (ask_chatbot (fun _ => ("Please visit the contact page.".toList)) [] ⟨true, false, []⟩
        (some ("how do I reset my password".toList)) (some "s1")).sent = [] ∧
    ¬ ((ask_chatbot (fun _ => ("Please visit the contact page.".toList)) [] ⟨true, false, []⟩
        (some ("how do I reset my password".toList)) (some "s1")).sent.length = 1) ∧
    convLookup (ask_chatbot (fun _ => ("Please visit the contact page.".toList)) [] ⟨true, false, []⟩
        (some ("how do I reset my password".toList)) (some "s1")).conv "s1" =
      some ⟨true, some ("how do I reset my password".toList)⟩ := by
  refine ⟨?_, ?_, ?_⟩ <;> decide

/-- C1 (amended): for every turn on a session not in awaiting-contact state
whose message contains no email address, if the generated answer contains an
unresolved-signal phrase, the handler dispatches no notification (the
time-of-day webhook/email dispatch of the earlier revision is absent;
`is_working_hours` is dead code in src/app.py), replies with the fixed
"cannot find an answer ... please provide your name and email address"
message, and enters awaiting-contact with `pendingQuery` set to the query. -/
theorem C1_amended_unresolved_path (gen : List Char → List Char) (conv : ConvState)
    (db : DbState) (sid : String) (q : List Char) (hq : q ≠ [])
    (hA : isAwaiting conv sid = false)
    (he : extract_email_from_text q = none)
    (hU : isUnanswered (gen q) = true) :
    (ask_chatbot gen conv db (some q) (some sid)).sent = [] ∧
    (ask_chatbot gen conv db (some q) (some sid)).resp.answer = cannotFindReply ∧
    convLookup (ask_chatbot gen conv db (some q) (some sid)).conv sid =
      some ⟨true, some q⟩ ∧
    (ask_chatbot gen conv db (some q) (some sid)).db = db := by
  rw [ask_default_unanswered gen conv db sid q hq hA he hU]
  exact ⟨rfl, rfl, convLookup_set_self conv sid _, rfl⟩

/-- Witness for the amended C1 at a concrete unresolved turn. -/
theorem C1_witness :
    ("how do I reset my password".toList) ≠ ([] : List Char) ∧
    isAwaiting ([] : ConvState) "s1" = false ∧
    extract_email_from_text ("how do I reset my password".toList) = none ∧
    isUnanswered ((fun _ => ("Please visit the contact page.".toList))
      ("how do I reset my password".toList)) = true ∧
    ((ask_chatbot (fun _ => ("Please visit the contact page.".toList)) [] ⟨true, false, []⟩
        (some ("how do I reset my password".toList)) (some "s1")).sent = [] ∧
      (ask_chatbot (fun _ => ("Please visit the contact page.".toList)) [] ⟨true, false, []⟩
        (some ("how do I reset my password".toList)) (some "s1")).resp.answer = cannotFindReply ∧
      convLookup (ask_chatbot (fun _ => ("Please visit the contact page.".toList)) [] ⟨true, false, []⟩
        (some ("how do I reset my password".toList)) (some "s1")).conv "s1" =
        some ⟨true, some ("how do I reset my password".toList)⟩ ∧
      (ask_chatbot (fun _ => ("Please visit the contact page.".toList)) [] ⟨true, false, []⟩
        (some ("how do I reset my password".toList)) (some "s1")).db = ⟨true, false, []⟩) :=
  ⟨by decide, by decide, by decide, by decide,
    C1_amended_unresolved_path (fun _ => ("Please visit the contact page.".toList)) []
      ⟨true, false, []⟩ "s1" ("how do I reset my password".toList)
      (by decide) (by decide) (by decide) (by decide)⟩

/-! ### Claim C2: unresolved answer enters awaiting-contact; contact info escalates -/

/-- C2: on a session not in awaiting-contact whose message contains no email,
an unresolved-signal answer makes the session enter awaiting-contact with
`pendingQuery` set to that turn's query and sends nothing; the next turn on
that session supplying `"Jane Doe, jane@example.com"` clears the session state
and triggers exactly one notification call carrying the original query, the
name `"Jane Doe"`, and the email `"jane@example.com"`. -/
theorem C2_two_turn_escalation (gen gen2 : List Char → List Char) (conv : ConvState)
    (db db2 : DbState) (sid : String) (q : List Char) (hq : q ≠ [])
    (hA : isAwaiting conv sid = false)
    (he : extract_email_from_text q = none)
    (hU : isUnanswered (gen q) = true) :
    convLookup (ask_chatbot gen conv db (some q) (some sid)).conv sid =
      some ⟨true, some q⟩ ∧
    (ask_chatbot gen conv db (some q) (some sid)).sent = [] ∧
    (ask_chatbot gen2 (ask_chatbot gen conv db (some q) (some sid)).conv db2
        (some ("Jane Doe, jane@example.com".toList)) (some sid)).sent =
      [⟨q, some ("jane@example.com".toList), some ("Jane Doe".toList)⟩] ∧
    convLookup (ask_chatbot gen2 (ask_chatbot gen conv db (some q) (some sid)).conv db2
        (some ("Jane Doe, jane@example.com".toList)) (some sid)).conv sid = none := by
  have h1 := ask_default_unanswered gen conv db sid q hq hA he hU
  have h1conv : (ask_chatbot gen conv db (some q) (some sid)).conv =
      convSet conv sid ⟨true, some q⟩ := by rw [h1]
  have h1sent : (ask_chatbot gen conv db (some q) (some sid)).sent = [] := by rw [h1]
  rw [h1conv]
  have hfwd := ask_awaiting_forward gen2 (convSet conv sid ⟨true, some q⟩) db2 sid
      ("Jane Doe, jane@example.com".toList) ("Jane Doe".toList) ("jane@example.com".toList)
      (by decide) (isAwaiting_set_true conv sid q) (by decide) (by decide)
  rw [hfwd]
  refine ⟨convLookup_set_self conv sid _, h1sent, ?_, ?_⟩
  · simp [convLookup_set_self]
  · exact convLookup_del_self _ sid

/-- Witness for C2 at a concrete two-turn conversation. -/
theorem C2_witness :
    isAwaiting ([] : ConvState) "s1" = false ∧
    extract_email_from_text ("when was the academy founded".toList) = none ∧
    isUnanswered ((fun _ => ("Sorry, I cannot find an answer in the FAQ.".toList))
      ("when was the academy founded".toList)) = true ∧
    (convLookup (ask_chatbot (fun _ => ("Sorry, I cannot find an answer in the FAQ.".toList))
        [] ⟨true, false, []⟩ (some ("when was the academy founded".toList)) (some "s1")).conv
        "s1" = some ⟨true, some ("when was the academy founded".toList)⟩ ∧
      (ask_chatbot (fun _ => ("Sorry, I cannot find an answer in the FAQ.".toList))
        [] ⟨true, false, []⟩ (some ("when was the academy founded".toList)) (some "s1")).sent
        = [] ∧
      (ask_chatbot (fun _ => ("x".toList))
        (ask_chatbot (fun _ => ("Sorry, I cannot find an answer in the FAQ.".toList))
          [] ⟨true, false, []⟩ (some ("when was the academy founded".toList)) (some "s1")).conv
        ⟨true, false, []⟩ (some ("Jane Doe, jane@example.com".toList)) (some "s1")).sent =
        [⟨("when was the academy founded".toList), some ("jane@example.com".toList),
          some ("Jane Doe".toList)⟩] ∧
      convLookup (ask_chatbot (fun _ => ("x".toList))
        (ask_chatbot (fun _ => ("Sorry, I cannot find an answer in the FAQ.".toList))
          [] ⟨true, false, []⟩ (some ("when was the academy founded".toList)) (some "s1")).conv
        ⟨true, false, []⟩ (some ("Jane Doe, jane@example.com".toList)) (some "s1")).conv "s1" =
        none) :=
  ⟨by decide, by decide, by decide,
    C2_two_turn_escalation (fun _ => ("Sorry, I cannot find an answer in the FAQ.".toList))
      (fun _ => ("x".toList)) [] ⟨true, false, []⟩ ⟨true, false, []⟩ "s1"
      ("when was the academy founded".toList) (by decide) (by decide) (by decide) (by decide)⟩

/-! ### Claim C3: the three outcomes of the email opt-in branch -/

theorem save_email_eq_new (db : DbState) (em : List Char) (hc : db.configured = true)
    (hf : db.failing = false) (hm : db.emails.contains em = false) :
    save_email db em = (true, { db with emails := db.emails ++ [em] }) := by
  unfold save_email
  rw [hc, hm, hf]
  simp

theorem save_email_eq_dup (db : DbState) (em : List Char)
    (hm : db.emails.contains em = true) :
    save_email db em = (false, db) := by
  unfold save_email
  rw [hm]
  cases hcfg : db.configured <;> simp [hcfg]

theorem save_email_eq_unconfigured (db : DbState) (em : List Char)
    (hc : db.configured = false) :
    save_email db em = (false, db) := by
  unfold save_email
  rw [hc]
  simp

theorem save_email_eq_fail (db : DbState) (em : List Char) (hf : db.failing = true) :
    save_email db em = (false, db) := by
  unfold save_email
  rw [hf]
  cases hcfg : db.configured <;> cases hm : db.emails.contains em <;> simp [hcfg, hm]

/-- C3: on a session not in awaiting-contact whose message contains an
email-shaped substring, persisting it has exactly three outcomes: newly stored
yields the thank-you reply with the fixed discount code; already present
yields the already-subscribed reply; persistence unavailable or failed yields
that same already-subscribed reply with the database unchanged (fail open). -/
theorem C3_email_optin_outcomes (gen : List Char → List Char) (conv : ConvState)
    (db : DbState) (sid : String) (q em : List Char) (hq : q ≠ [])
    (hA : isAwaiting conv sid = false)
    (he : extract_email_from_text q = some em) :
    (db.configured = true → db.failing = false → db.emails.contains em = false →
      ask_chatbot gen conv db (some q) (some sid) =
        ⟨⟨200, thankYouSub, none⟩, conv, { db with emails := db.emails ++ [em] }, []⟩) ∧
    (db.emails.contains em = true →
      ask_chatbot gen conv db (some q) (some sid) =
        ⟨⟨200, alreadySub, none⟩, conv, db, []⟩) ∧
    ((db.configured = false ∨ db.failing = true) →
      ask_chatbot gen conv db (some q) (some sid) =
        ⟨⟨200, alreadySub, none⟩, conv, db, []⟩) := by
  refine ⟨?_, ?_, ?_⟩
  · intro hc hf hm
    exact ask_optin_new gen conv db { db with emails := db.emails ++ [em] } sid q em hq hA he
      (save_email_eq_new db em hc hf hm)
  · intro hm
    exact ask_optin_dup gen conv db db sid q em hq hA he (save_email_eq_dup db em hm)
  · intro hcf
    rcases hcf with hc | hf
    · exact ask_optin_dup gen conv db db sid q em hq hA he (save_email_eq_unconfigured db em hc)
    · exact ask_optin_dup gen conv db db sid q em hq hA he (save_email_eq_fail db em hf)

/-- Witness for C3: the spec's example message on a fresh session with an
empty, working persistence stores the email and replies with the discount
code `BBTPOFF5`. -/
theorem C3_witness :
    isAwaiting ([] : ConvState) "s1" = false ∧
    extract_email_from_text ("contact me at jane@example.com".toList) =
      some ("jane@example.com".toList) ∧
    containsSub ("BBTPOFF5".toList) thankYouSub = true ∧
    ask_chatbot (fun _ => ("x".toList)) [] ⟨true, false, []⟩
        (some ("contact me at jane@example.com".toList)) (some "s1") =
      ⟨⟨200, thankYouSub, none⟩, [], ⟨true, false, [("jane@example.com".toList)]⟩, []⟩ :=
  ⟨by decide, by decide, by decide,
    (C3_email_optin_outcomes (fun _ => ("x".toList)) [] ⟨true, false, []⟩ "s1"
      ("contact me at jane@example.com".toList) ("jane@example.com".toList)
      (by decide) (by decide) (by decide)).1 rfl rfl (by decide)⟩

/-! ### Claim C7: the decline branch of the awaiting-contact state -/

/-- C7: on a session in awaiting-contact whose message does not supply both a
name and an email but does contain a decline signal (case-insensitive
substring `"no"` or `"don't want to share"`), the session state is cleared,
the reply says the question cannot be forwarded without contact information,
and no notification is sent. -/
theorem C7_decline_clears_state (gen : List Char → List Char) (conv : ConvState)
    (db : DbState) (sid : String) (ctx : SessCtx) (q : List Char)
    (hctx : convLookup conv sid = some ctx)
    (hw : ctx.waiting_for_contact = true)
    (hne : extract_name_from_text q = none ∨ extract_email_from_text q = none)
    (hd : (containsSub noSignal (lowerStr q) || containsSub declineSignal (lowerStr q)) = true) :
    ask_chatbot gen conv db (some q) (some sid) =
      ⟨⟨200, declinedReply, none⟩, convDel conv sid, db, []⟩ ∧
    convLookup (ask_chatbot gen conv db (some q) (some sid)).conv sid = none := by
  have hq : q ≠ [] := by
    intro h
    subst h
    exact absurd hd (by decide)
  have heq := ask_awaiting_noboth gen conv db sid q hq
    (isAwaiting_of_lookup conv sid ctx hctx hw) hne
  rw [heq, if_pos hd]
  exact ⟨rfl, convLookup_del_self conv sid⟩

/-- Witness for C7: the spec's `"no thanks"` turn on an awaiting session. -/
theorem C7_witness :
    convLookup [("s1", (⟨true, some ("orig question".toList)⟩ : SessCtx))] "s1" =
      some ⟨true, some ("orig question".toList)⟩ ∧
    extract_name_from_text ("no thanks".toList) = none ∧
    (ask_chatbot (fun _ => ("x".toList)) [("s1", ⟨true, some ("orig question".toList)⟩)]
        ⟨true, false, []⟩ (some ("no thanks".toList)) (some "s1") =
      ⟨⟨200, declinedReply, none⟩,
        convDel [("s1", ⟨true, some ("orig question".toList)⟩)] "s1", ⟨true, false, []⟩, []⟩ ∧
      convLookup (ask_chatbot (fun _ => ("x".toList))
        [("s1", ⟨true, some ("orig question".toList)⟩)] ⟨true, false, []⟩
        (some ("no thanks".toList)) (some "s1")).conv "s1" = none) :=
  ⟨by decide, by decide,
    C7_decline_clears_state (fun _ => ("x".toList))
      [("s1", ⟨true, some ("orig question".toList)⟩)] ⟨true, false, []⟩ "s1"
      ⟨true, some ("orig question".toList)⟩ ("no thanks".toList)
      (by decide) rfl (Or.inl (by decide)) (by decide)⟩

/-! ### Claim C8: the default path returns the answer with its extracted URLs -/

/-- C8: on the default FAQ/LLM path (no awaiting-contact, no email in the
message) with an answer containing no unresolved-signal phrase, the response
carries the answer text unchanged together with exactly the URLs extracted
from it, and nothing else changes. -/
theorem C8_default_path_urls (gen : List Char → List Char) (conv : ConvState) (db : DbState)
    (sid : String) (q : List Char) (hq : q ≠ [])
    (hA : isAwaiting conv sid = false)
    (he : extract_email_from_text q = none)
    (hU : isUnanswered (gen q) = false) :
    ask_chatbot gen conv db (some q) (some sid) =
      ⟨⟨200, gen q, some (extract_url_from_text (gen q))⟩, conv, db, []⟩ :=
  ask_default_answered gen conv db sid q hq hA he hU

/-- Witness for C8: an answer mentioning `https://example.com/help` yields
exactly that URL in the response. -/
theorem C8_witness :
    extract_url_from_text ("Please see https://example.com/help for details".toList) =
      [("https://example.com/help".toList)] ∧
    isUnanswered ((fun _ => ("Please see https://example.com/help for details".toList))
      ("hello".toList)) = false ∧
    ask_chatbot (fun _ => ("Please see https://example.com/help for details".toList)) []
        ⟨true, false, []⟩ (some ("hello".toList)) (some "s1") =
      ⟨⟨200, ("Please see https://example.com/help for details".toList),
          some (extract_url_from_text
            ("Please see https://example.com/help for details".toList))⟩,
        [], ⟨true, false, []⟩, []⟩ :=
  ⟨by decide, by decide,
    C8_default_path_urls (fun _ => ("Please see https://example.com/help for details".toList))
      [] ⟨true, false, []⟩ "s1" ("hello".toList) (by decide) (by decide) (by decide) (by decide)⟩

/-! ### Claim C9: an extracted email short-circuits the Answer Generator -/

/-- C9: on a session not in awaiting-contact whose message contains an
email-shaped substring, the turn's outcome is independent of the Answer
Generator (it is never invoked) and the reply is one of the two
subscription replies, even when the message also contains a question. -/
theorem C9_email_short_circuits_generator (gen gen2 : List Char → List Char)
    (conv : ConvState) (db : DbState) (sid : String) (q em : List Char)
    (hA : isAwaiting conv sid = false)
    (he : extract_email_from_text q = some em) :
    ask_chatbot gen conv db (some q) (some sid) =
      ask_chatbot gen2 conv db (some q) (some sid) ∧
    ((ask_chatbot gen conv db (some q) (some sid)).resp.answer = thankYouSub ∨
      (ask_chatbot gen conv db (some q) (some sid)).resp.answer = alreadySub) := by
  have hq : q ≠ [] := by
    intro h
    subst h
    simp [extract_email_from_text, findEmail] at he
  rcases hsv : save_email db em with ⟨b, db2⟩
  cases b
  · rw [ask_optin_dup gen conv db db2 sid q em hq hA he hsv,
      ask_optin_dup gen2 conv db db2 sid q em hq hA he hsv]
    exact ⟨rfl, Or.inr rfl⟩
  · rw [ask_optin_new gen conv db db2 sid q em hq hA he hsv,
      ask_optin_new gen2 conv db db2 sid q em hq hA he hsv]
    exact ⟨rfl, Or.inl rfl⟩

/-- Witness for C9: a message that both asks a question and contains an email
gets a subscription reply, identically for two different generators. -/
theorem C9_witness :
    isAwaiting ([] : ConvState) "s1" = false ∧
    extract_email_from_text ("what is the refund policy, reach me at jane@example.com".toList) =
      some ("jane@example.com".toList) ∧
    (ask_chatbot (fun _ => ("A".toList)) [] ⟨true, false, []⟩
        (some ("what is the refund policy, reach me at jane@example.com".toList)) (some "s1") =
      ask_chatbot (fun _ => ("B".toList)) [] ⟨true, false, []⟩
        (some ("what is the refund policy, reach me at jane@example.com".toList)) (some "s1") ∧
      ((ask_chatbot (fun _ => ("A".toList)) [] ⟨true, false, []⟩
          (some ("what is the refund policy, reach me at jane@example.com".toList))
          (some "s1")).resp.answer = thankYouSub ∨
        (ask_chatbot (fun _ => ("A".toList)) [] ⟨true, false, []⟩
          (some ("what is the refund policy, reach me at jane@example.com".toList))
          (some "s1")).resp.answer = alreadySub)) :=
  ⟨by decide, by decide,
    C9_email_short_circuits_generator (fun _ => ("A".toList)) (fun _ => ("B".toList)) []
      ⟨true, false, []⟩ "s1"
      ("what is the refund policy, reach me at jane@example.com".toList)
      ("jane@example.com".toList) (by decide) (by decide)⟩

/-! ### Claim C10: the capitalized-word gate on escalation -/

theorem extract_name_some_shape (q nm : List Char)
    (h : extract_name_from_text q = some nm) :
    2 ≤ (nameCandidates q).length ∨
      (∃ w, nameCandidates q = [w] ∧ 2 < w.length) := by
  unfold extract_name_from_text at h
  rcases hc : nameCandidates q with _ | ⟨w, _ | ⟨w2, ws2⟩⟩ <;> rw [hc] at h <;> dsimp only at h
  · cases h
  · by_cases hw : 2 < w.length
    · exact Or.inr ⟨w, rfl, hw⟩
    · rw [if_neg hw] at h
      cases h
  · refine Or.inl ?_
    simp

theorem awaiting_sent_requires_name (gen : List Char → List Char) (conv : ConvState)
    (db : DbState) (sid : String) (q : List Char)
    (hA : isAwaiting conv sid = true)
    (hs : (ask_chatbot gen conv db (some q) (some sid)).sent ≠ []) :
    ∃ nm, extract_name_from_text q = some nm := by
  by_cases hq : q = []
  · subst hq
    rw [ask_empty_query] at hs
    exact absurd rfl hs
  · cases hn : extract_name_from_text q with
    | some nm => exact ⟨nm, rfl⟩
    | none =>
      exfalso
      have heq := ask_awaiting_noboth gen conv db sid q hq hA (Or.inl hn)
      rw [heq] at hs
      by_cases hd : (containsSub noSignal (lowerStr q)
          || containsSub declineSignal (lowerStr q)) = true
      · rw [if_pos hd] at hs
        exact hs rfl
      · rw [if_neg hd] at hs
        exact hs rfl

/-- C10: on a session in awaiting-contact, escalation (a notification call)
fires only if the message yields a name: two or more capitalized words outside
the fixed common-word set, or a single such word longer than two letters; and
the all-lower-case message `"jane doe, jane@example.com"` (no decline signal)
leaves the session state unchanged and yields the re-request reply with no
notification. -/
theorem C10_capitalized_name_gate (gen : List Char → List Char) (conv : ConvState)
    (db : DbState) (sid : String) (ctx : SessCtx) (q : List Char)
    (hctx : convLookup conv sid = some ctx)
    (hw : ctx.waiting_for_contact = true) :
    ((ask_chatbot gen conv db (some q) (some sid)).sent ≠ [] →
      2 ≤ (nameCandidates q).length ∨ (∃ w, nameCandidates q = [w] ∧ 2 < w.length)) ∧
    (q = ("jane doe, jane@example.com".toList) →
      ask_chatbot gen conv db (some q) (some sid) =
        ⟨⟨200, stillNeedReply, none⟩, conv, db, []⟩) := by
  have hA := isAwaiting_of_lookup conv sid ctx hctx hw
  constructor
  · intro hs
    obtain ⟨nm, hn⟩ := awaiting_sent_requires_name gen conv db sid q hA hs
    exact extract_name_some_shape q nm hn
  · intro hqj
    subst hqj
    have heq := ask_awaiting_noboth gen conv db sid ("jane doe, jane@example.com".toList)
      (by decide) hA (Or.inl (by decide))
    rw [heq, if_neg (by decide)]

/-- Witness for C10: the lower-case contact message on an awaiting session
leaves the state unchanged and re-requests name and email. -/
theorem C10_witness :
    convLookup [("s1", (⟨true, some ("orig".toList)⟩ : SessCtx))] "s1" =
      some ⟨true, some ("orig".toList)⟩ ∧
    ask_chatbot (fun _ => ("x".toList)) [("s1", ⟨true, some ("orig".toList)⟩)] ⟨true, false, []⟩
        (some ("jane doe, jane@example.com".toList)) (some "s1") =
      ⟨⟨200, stillNeedReply, none⟩, [("s1", ⟨true, some ("orig".toList)⟩)],
        ⟨true, false, []⟩, []⟩ :=
  ⟨by decide,
    (C10_capitalized_name_gate (fun _ => ("x".toList)) [("s1", ⟨true, some ("orig".toList)⟩)]
      ⟨true, false, []⟩ "s1" ⟨true, some ("orig".toList)⟩
      ("jane doe, jane@example.com".toList) (by decide) rfl).2 rfl⟩
